import Mathlib

/-!
Shallow embedding of `src/js/script.js` (portfolio page script) and proofs of
its specification claims.

The script is single-threaded, event-driven DOM glue.  We embed each piece of
logic the claims touch as an explicit Lean function or small state machine:

* `rafThrottle` (script.js lines 80-91) becomes a state machine
  `ThrottleState` with operations `throttleCall` (one wrapper invocation) and
  `runFrame` (the queued `requestAnimationFrame` callback firing).
  `runFrameThrow` models the frame callback when the wrapped handler throws:
  the `ticking = false` line after `fn.apply` never executes.
* the header scroll handler (lines 96-106) becomes `onHeaderScroll` over a
  class list, with `classToggle` modelling `classList.toggle(c, force)`.
* `updateIndicator` (lines 112-123) becomes a pure function on rationals.
* the contact-form submit handler (lines 235-267) becomes `submitEffects`, a
  trace of DOM effects as a function of the fetch outcome.
* `showToast`'s timers (lines 273-303) become an explicit timeline of the
  scheduled `setTimeout` / exit-animation events.
* the project-modal click handler (lines 315-341) becomes `openModalView`,
  with `jsSplit` / `jsTrim` modelling `split(',')` and `trim()`.
* `hideModal` and the Escape `keydown` listener (lines 343-359) become
  functions on a `PageState`.
-/

/-! ## rafThrottle (script.js lines 80-91) -/

/-- State of one wrapper returned by `rafThrottle`:
`ticking` is the closure variable of the same name; `scheduled` is the
pending `requestAnimationFrame` callback, if any, carrying the `this`/`args`
pair (abstracted as a single value of type `α`) that the closure captured at
scheduling time. -/
structure ThrottleState (α : Type) where
  ticking : Bool
  scheduled : Option α
deriving DecidableEq, Repr

/-- Initial state: `let ticking = false`, nothing scheduled. -/
def throttleInit {α : Type} : ThrottleState α :=
  { ticking := false, scheduled := none }

/-- One invocation of the wrapper with `this`/`args` value `a`:
if `!ticking`, schedule a frame callback capturing `a` and set
`ticking = true`; otherwise do nothing. -/
def throttleCall {α : Type} (s : ThrottleState α) (a : α) : ThrottleState α :=
  if s.ticking then s
  else { ticking := true, scheduled := some a }

/-- The browser firing the next animation frame: if a callback is pending it
runs, invoking `fn` with the captured value (returned in the list) and then
setting `ticking = false`. -/
def runFrame {α : Type} (s : ThrottleState α) : ThrottleState α × List α :=
  match s.scheduled with
  | some a => ({ ticking := false, scheduled := none }, [a])
  | none => (s, [])

/-- The animation frame firing when `fn` throws: `fn.apply(this, args)` is
entered (so `fn` is invoked, hence the `[a]`), but the statement
`ticking = false` on the next line never runs, so `ticking` keeps its value. -/
def runFrameThrow {α : Type} (s : ThrottleState α) : ThrottleState α × List α :=
  match s.scheduled with
  | some a => ({ ticking := s.ticking, scheduled := none }, [a])
  | none => (s, [])

/-- An event affecting the wrapper: a wrapper invocation or a frame firing. -/
inductive ThrottleOp (α : Type) where
  | call : α → ThrottleOp α
  | frame : ThrottleOp α
deriving DecidableEq, Repr

/-- Run one event; the list collects the invocations of the wrapped `fn`
performed during that event (a wrapper call performs none synchronously). -/
def runOp {α : Type} (s : ThrottleState α) : ThrottleOp α → ThrottleState α × List α
  | ThrottleOp.call a => (throttleCall s a, [])
  | ThrottleOp.frame => runFrame s

/-- Run a sequence of events, concatenating all invocations of `fn`. -/
def runOps {α : Type} (s : ThrottleState α) : List (ThrottleOp α) → ThrottleState α × List α
  | [] => (s, [])
  | op :: rest =>
      let p := runOp s op
      let q := runOps p.1 rest
      (q.1, p.2 ++ q.2)

/-! ## Header scroll handler (script.js lines 96-106) -/

/-- Model of `element.classList.toggle(c, force)`: with `force = true` the
class is added if absent, with `force = false` it is removed. -/
def classToggle (classes : List String) (c : String) (force : Bool) : List String :=
  if force then (if c ∈ classes then classes else classes ++ [c])
  else classes.filter (fun x => x ≠ c)

/-- The header scroll handler body (line 100-101):
`const scrolled = window.scrollY > 50; header.classList.toggle('scrolled', scrolled)`. -/
def onHeaderScroll (scrollY : ℚ) (classes : List String) : List String :=
  classToggle classes "scrolled" (decide (scrollY > 50))

/-! ## Scroll indicator (script.js lines 112-123) -/

/-- `updateIndicator` (lines 113-119): returns the factor written as
`scaleX(...)` to the indicator's transform.
`scrollableHeight = scrollHeight - clientHeight`;
`scrollPercent = scrollableHeight > 0 ? scrollTop / scrollableHeight * 100 : 0`;
result `= Math.min(Math.max(scrollPercent / 100, 0), 1)`. -/
def updateIndicator (scrollTop scrollHeight clientHeight : ℚ) : ℚ :=
  let scrollableHeight := scrollHeight - clientHeight
  let scrollPercent := if scrollableHeight > 0 then scrollTop / scrollableHeight * 100 else 0
  min (max (scrollPercent / 100) 0) 1

/-! ## Contact-form submit handler (script.js lines 235-267) -/

/-- Outcome of `await fetch(...)` in the submit handler:
the response resolved with `response.ok` true, resolved with `response.ok`
false, or the fetch itself rejected (network/transport failure). -/
inductive FetchOutcome where
  | ok
  | rejected
  | threw
deriving DecidableEq, Repr

/-- A DOM/UI effect performed by the submit handler, in program order. -/
inductive Effect where
  | preventDefault
  | setDisabled : Bool → Effect
  | setLabel : String → Effect
  | fetchSend
  | animateForm
  | toast : String → String → Effect
  | resetForm
  | logError
deriving DecidableEq, Repr

/-- The submit handler (lines 235-267) as the trace of effects it performs,
as a function of the fetch outcome.  Program order follows the source:
`e.preventDefault()`; disable button; label `"Sending..."`; `fetch`; then the
`try`/`catch` branches; then the `finally` block re-enables the button and
restores the label on every path. -/
def submitEffects (outcome : FetchOutcome) : List Effect :=
  [Effect.preventDefault, Effect.setDisabled true, Effect.setLabel "Sending...",
   Effect.fetchSend]
  ++ (match outcome with
      | FetchOutcome.ok =>
          [Effect.animateForm,
           Effect.toast "✅ Message sent successfully!" "success",
           Effect.resetForm,
           Effect.animateForm]
      | FetchOutcome.rejected =>
          [Effect.toast "❌ Something went wrong. Please try again." "error"]
      | FetchOutcome.threw =>
          [Effect.logError,
           Effect.toast "⚠️ Network error. Please try again later." "error"])
  ++ [Effect.setDisabled false, Effect.setLabel "Send Message"]

/-- The toasts shown by an effect trace, as (message, type) pairs in order. -/
def toastsOf (l : List Effect) : List (String × String) :=
  l.foldr (fun e acc => match e with
    | Effect.toast m t => (m, t) :: acc
    | _ => acc) []

/-- Whether the trace resets (clears) the form fields. -/
def didReset (l : List Effect) : Bool :=
  l.any fun e => match e with
    | Effect.resetForm => true
    | _ => false

/-- The submit button's `disabled` value after the trace runs (`none` if the
trace never touches it). -/
def finalDisabled (l : List Effect) : Option Bool :=
  l.foldl (fun acc e => match e with
    | Effect.setDisabled b => some b
    | _ => acc) none

/-- The submit button's label after the trace runs (`none` if never set). -/
def finalLabel (l : List Effect) : Option String :=
  l.foldl (fun acc e => match e with
    | Effect.setLabel t => some t
    | _ => acc) none

/-! ## Toast timers (script.js lines 273-303) -/

/-- The `setTimeout` dwell before the exit animation starts (line 302). -/
def toastDwellMs : ℚ := 3000

/-- The exit animation's duration: `duration: 0.5` seconds (line 298). -/
def toastExitDurMs : ℚ := 500

/-- The timer/animation events `showToast` schedules for one toast created at
time `T` (milliseconds): the node is appended at `T`; the only removal path is
the `setTimeout(..., 3000)` whose callback starts the exit tween, whose
`onComplete` calls `toast.remove()`. -/
structure ToastTimeline where
  createdAt : ℚ
  exitStartsAt : ℚ
  removedAt : ℚ
deriving DecidableEq, Repr

/-- Timeline of a toast created at `T` per `showToast`. -/
def showToastTimeline (T : ℚ) : ToastTimeline :=
  { createdAt := T
    exitStartsAt := T + toastDwellMs
    removedAt := T + toastDwellMs + toastExitDurMs }

/-- The toast created at `T` is in the document at time `t`: it has been
appended and its removal event has not yet occurred. -/
def toastInDocumentAt (T t : ℚ) : Prop :=
  T ≤ t ∧ t < (showToastTimeline T).removedAt

/-! ## Project modal (script.js lines 308-359) -/

/-- JavaScript `str.split(sep)` for a single-character separator, on the
character list: every occurrence of `sep` produces a boundary and empty
tokens are kept (`"".split(',')` is `[""]`, `",".split(',')` is `["", ""]`). -/
def jsSplitAux (sep : Char) : List Char → List Char → List String
  | [], acc => [String.mk acc.reverse]
  | c :: cs, acc =>
      if c = sep then String.mk acc.reverse :: jsSplitAux sep cs []
      else jsSplitAux sep cs (c :: acc)

/-- JavaScript `s.split(sep)` for a one-character separator. -/
def jsSplit (sep : Char) (s : String) : List String :=
  jsSplitAux sep s.data []

/-- Drop leading whitespace characters from a character list. -/
def dropLeadingWs : List Char → List Char
  | [] => []
  | c :: cs => if c.isWhitespace then dropLeadingWs cs else c :: cs

/-- JavaScript `s.trim()`: strip leading and trailing whitespace (the
attribute values here are ASCII, where JS and Lean whitespace agree). -/
def jsTrim (s : String) : String :=
  String.mk (dropLeadingWs (dropLeadingWs s.data).reverse).reverse

/-- JavaScript truthy fallback `v || dflt` for an optional string attribute:
an absent attribute is `undefined` (falsy) and the empty string is falsy. -/
def jsStringOr (v : Option String) (dflt : String) : String :=
  match v with
  | some s => if s = "" then dflt else s
  | none => dflt

/-- Line 320: `card.dataset.stack ? card.dataset.stack.split(',').map(s => s.trim()) : []`. -/
def stackTokens (v : Option String) : List String :=
  match v with
  | some s => if s = "" then [] else (jsSplit ',' s).map jsTrim
  | none => []

/-- What the click handler renders into the modal (lines 315-341).
`stackContent` is `Sum.inl labels` when one `<span>` per token is appended,
and `Sum.inr msg` when the container's `textContent` is set to the
placeholder message instead. -/
structure ModalView where
  title : String
  description : String
  stackContent : List String ⊕ String
  display : String
  bodyOverflow : String
deriving DecidableEq, Repr

/-- The project-card click handler as a function of the card's `data-title`,
`data-description` and `data-stack` attributes (`none` = attribute absent). -/
def openModalView (tAttr dAttr sAttr : Option String) : ModalView :=
  let stack := stackTokens sAttr
  { title := jsStringOr tAttr "Project Details"
    description := jsStringOr dAttr "No description available."
    stackContent :=
      if stack.length > 0 then Sum.inl stack
      else Sum.inr "Tech stack not specified."
    display := "block"
    bodyOverflow := "hidden" }

/-- The page state the modal logic reads and writes: whether the modal
element exists in the DOM, its `style.display`, and `document.body.style.overflow`. -/
structure PageState where
  modalPresent : Bool
  modalDisplay : String
  bodyOverflow : String
deriving DecidableEq, Repr

/-- `hideModal` (lines 343-347): `if (!modal) return;` then sets
`display = "none"` and `body.style.overflow = ''`. -/
def hideModal (st : PageState) : PageState :=
  if st.modalPresent then
    { st with modalDisplay := "none", bodyOverflow := "" }
  else st

/-- The `keydown` listener (lines 355-359): on Escape (or legacy `"Esc"`),
call `hideModal` only if the modal exists and its display is `"block"`. -/
def onKeydown (key : String) (st : PageState) : PageState :=
  if key = "Escape" ∨ key = "Esc" then
    (if st.modalPresent = true ∧ st.modalDisplay = "block" then hideModal st else st)
  else st

/-! ## Helper lemmas -/

theorem throttleCall_of_ticking {α : Type} (s : ThrottleState α) (a : α)
    (h : s.ticking = true) : throttleCall s a = s := by
  simp [throttleCall, h]

theorem runOps_calls_of_ticking {α : Type} (l : List α) (s : ThrottleState α)
    (h : s.ticking = true) : runOps s (l.map ThrottleOp.call) = (s, []) := by
  induction l with
  | nil => rfl
  | cons b rest ih =>
      simp [runOps, runOp, throttleCall_of_ticking s b h, ih]

theorem runOps_stuck {α : Type} (ops : List (ThrottleOp α)) :
    runOps ({ ticking := true, scheduled := none } : ThrottleState α) ops
      = ({ ticking := true, scheduled := none }, []) := by
  induction ops with
  | nil => rfl
  | cons op rest ih =>
      cases op with
      | call a => simp [runOps, runOp, throttleCall, ih]
      | frame => simp [runOps, runOp, runFrame, ih]

theorem runOps_append {α : Type} (s : ThrottleState α) (l1 l2 : List (ThrottleOp α)) :
    runOps s (l1 ++ l2)
      = ((runOps (runOps s l1).1 l2).1,
         (runOps s l1).2 ++ (runOps (runOps s l1).1 l2).2) := by
  induction l1 generalizing s with
  | nil => simp [runOps]
  | cons op rest ih =>
      simp [runOps, ih, List.append_assoc]

/-! ## Claim theorems -/

/-- C1 counterexample: invoking the wrapper twice (arguments 1 then 2) before
the frame callback fires makes `fn` run with the FIRST call's arguments, not
the last call's: the second call finds `ticking` already true, so its
arguments are discarded and the frame executes the closure captured by the
first call. -/
theorem rafThrottle_last_args_counterexample :
    (runOps (throttleInit : ThrottleState ℕ)
        [ThrottleOp.call 1, ThrottleOp.call 2, ThrottleOp.frame]).2 = [1] ∧
    (runOps (throttleInit : ThrottleState ℕ)
        [ThrottleOp.call 1, ThrottleOp.call 2, ThrottleOp.frame]).2 ≠ [2] := by
  decide

/-- C1 (amended): a burst of N >= 1 wrapper calls before the next frame
callback produces no synchronous execution of `fn`, and the frame callback
then executes `fn` exactly once, with the `this`/`args` of the FIRST call of
the burst (later calls in the burst are dropped). -/
theorem rafThrottle_burst_once_first_args {α : Type} (l : List α) (h : l ≠ []) :
    (runOps (throttleInit : ThrottleState α) (l.map ThrottleOp.call)).2 = [] ∧
    (runOps (throttleInit : ThrottleState α)
        (l.map ThrottleOp.call ++ [ThrottleOp.frame])).2 = [l.head h] := by
  obtain ⟨a, rest, rfl⟩ := List.exists_cons_of_ne_nil h
  have hstep : throttleCall (throttleInit : ThrottleState α) a
      = { ticking := true, scheduled := some a } := rfl
  have hcall : runOps (throttleInit : ThrottleState α) ((a :: rest).map ThrottleOp.call)
      = ({ ticking := true, scheduled := some a }, []) := by
    simp [runOps, runOp, hstep,
      runOps_calls_of_ticking rest ({ ticking := true, scheduled := some a }) rfl]
  refine ⟨by rw [hcall], ?_⟩
  rw [List.map_cons] at hcall ⊢
  rw [runOps_append, hcall]
  simp [runOps, runOp, runFrame]

/-- C1 witness: the amended theorem applied to the burst `[1, 2]`. -/
theorem rafThrottle_burst_once_first_args_witness :
    (runOps (throttleInit : ThrottleState ℕ)
        ([1, 2].map ThrottleOp.call ++ [ThrottleOp.frame])).2 = [1] :=
  (rafThrottle_burst_once_first_args ([1, 2] : List ℕ) (by decide)).2

/-- C2: if the wrapped handler throws inside its frame callback, the line
`ticking = false` never runs, so the wrapper is left with `ticking = true`
and nothing scheduled; from then on every event sequence (further wrapper
calls and frames) schedules nothing and never invokes `fn` again. -/
theorem rafThrottle_throw_stuck {α : Type} (s : ThrottleState α) (a : α)
    (ops : List (ThrottleOp α)) (ht : s.ticking = true) (hs : s.scheduled = some a) :
    (runFrameThrow s).2 = [a] ∧
    (runFrameThrow s).1 = { ticking := true, scheduled := none } ∧
    runOps (runFrameThrow s).1 ops
      = (({ ticking := true, scheduled := none } : ThrottleState α), []) := by
  have h1 : runFrameThrow s
      = (({ ticking := true, scheduled := none } : ThrottleState α), [a]) := by
    simp [runFrameThrow, hs, ht]
  refine ⟨by rw [h1], by rw [h1], ?_⟩
  rw [h1]
  exact runOps_stuck ops

/-- C2 witness: a concrete stuck wrapper with a pending callback whose
handler throws, followed by further calls and frames that do nothing. -/
theorem rafThrottle_throw_stuck_witness :
    (runFrameThrow ({ ticking := true, scheduled := some 5 } : ThrottleState ℕ)).2 = [5] ∧
    (runFrameThrow ({ ticking := true, scheduled := some 5 } : ThrottleState ℕ)).1
      = { ticking := true, scheduled := none } ∧
    runOps (runFrameThrow ({ ticking := true, scheduled := some 5 } : ThrottleState ℕ)).1
        [ThrottleOp.call 7, ThrottleOp.frame, ThrottleOp.call 8, ThrottleOp.frame]
      = (({ ticking := true, scheduled := none } : ThrottleState ℕ), []) :=
  rafThrottle_throw_stuck ({ ticking := true, scheduled := some 5 } : ThrottleState ℕ) 5
    [ThrottleOp.call 7, ThrottleOp.frame, ThrottleOp.call 8, ThrottleOp.frame] rfl rfl

/-- C3: the submit handler's outcome is a function of the fetch result alone:
an ok response shows exactly the success toast and resets the form; a non-ok
response shows exactly the server-rejection error toast and does not reset;
a thrown fetch shows exactly the distinct network-error toast and does not
reset. -/
theorem contactForm_outcomes :
    toastsOf (submitEffects FetchOutcome.ok)
        = [("✅ Message sent successfully!", "success")] ∧
    didReset (submitEffects FetchOutcome.ok) = true ∧
    toastsOf (submitEffects FetchOutcome.rejected)
        = [("❌ Something went wrong. Please try again.", "error")] ∧
    didReset (submitEffects FetchOutcome.rejected) = false ∧
    toastsOf (submitEffects FetchOutcome.threw)
        = [("⚠️ Network error. Please try again later.", "error")] ∧
    didReset (submitEffects FetchOutcome.threw) = false ∧
    toastsOf (submitEffects FetchOutcome.threw)
      ≠ toastsOf (submitEffects FetchOutcome.rejected) := by
  refine ⟨rfl, rfl, rfl, rfl, rfl, rfl, by decide⟩

/-- C4: on every path of the submit handler (ok, non-ok, thrown), the
`finally` block leaves the submit button enabled and labelled
"Send Message". -/
theorem contactForm_cleanup (outcome : FetchOutcome) :
    finalDisabled (submitEffects outcome) = some false ∧
    finalLabel (submitEffects outcome) = some "Send Message" := by
  cases outcome <;> exact ⟨rfl, rfl⟩

/-- C5: the scale written by `updateIndicator` is
`clamp(scrollTop / (scrollHeight - clientHeight), 0, 1)` whenever the
document is scrollable, and 0 whenever `scrollHeight - clientHeight <= 0`
(the guard takes the constant-0 branch, so no division happens there). -/
theorem updateIndicator_clamp (scrollTop scrollHeight clientHeight : ℚ) :
    (0 < scrollHeight - clientHeight →
      updateIndicator scrollTop scrollHeight clientHeight
        = min (max (scrollTop / (scrollHeight - clientHeight)) 0) 1) ∧
    (scrollHeight - clientHeight ≤ 0 →
      updateIndicator scrollTop scrollHeight clientHeight = 0) := by
  constructor
  · intro h
    simp only [updateIndicator]
    rw [if_pos h, mul_div_assoc]
    norm_num
  · intro h
    simp only [updateIndicator]
    rw [if_neg (not_lt.mpr h)]
    norm_num

/-- C5 witness: a scrollable and a non-scrollable concrete layout. -/
theorem updateIndicator_clamp_witness :
    updateIndicator 100 400 200 = min (max ((100 : ℚ) / (400 - 200)) 0) 1 ∧
    updateIndicator 5 300 300 = 0 :=
  ⟨(updateIndicator_clamp 100 400 200).1 (by norm_num),
   (updateIndicator_clamp 5 300 300).2 (by norm_num)⟩

theorem classToggle_mem (classes : List String) (c : String) (force : Bool) :
    c ∈ classToggle classes c force ↔ force = true := by
  cases force with
  | false => simp [classToggle, List.mem_filter]
  | true =>
      by_cases h : c ∈ classes <;> simp [classToggle, h]

/-- C6: after the header scroll handler runs at vertical offset `s`, the
header carries the class "scrolled" iff `s > 50`; in particular the class is
absent at 50 and present at 51, whatever the prior class list. -/
theorem onHeaderScroll_scrolled (s : ℚ) (classes : List String) :
    ("scrolled" ∈ onHeaderScroll s classes ↔ s > 50) ∧
    "scrolled" ∉ onHeaderScroll 50 classes ∧
    "scrolled" ∈ onHeaderScroll 51 classes := by
  have main : ∀ q : ℚ, "scrolled" ∈ onHeaderScroll q classes ↔ q > 50 := by
    intro q
    rw [onHeaderScroll, classToggle_mem]
    exact decide_eq_true_iff
  refine ⟨main s, ?_, ?_⟩
  · rw [main 50]
    norm_num
  · rw [main 51]
    norm_num

theorem jsSplitAux_ne_nil (sep : Char) (l acc : List Char) :
    jsSplitAux sep l acc ≠ [] := by
  induction l generalizing acc with
  | nil => simp [jsSplitAux]
  | cons c cs ih =>
      simp only [jsSplitAux]
      split
      · simp
      · exact ih _

/-- C7: a card with `data-stack="Go, React"` renders exactly the two labels
"Go" then "React" (comma-split, trimmed, order kept); a card with no
`data-stack` renders the placeholder text; an absent `data-title` and
`data-description` fall back to their defaults. -/
theorem projectModal_render :
    (openModalView none none (some "Go, React")).stackContent
        = Sum.inl ["Go", "React"] ∧
    (openModalView none none none).stackContent
        = Sum.inr "Tech stack not specified." ∧
    (openModalView none none none).title = "Project Details" ∧
    (openModalView none none none).description = "No description available." := by
  refine ⟨by decide, rfl, rfl, rfl⟩

/-- C8: the comma-split keeps empty tokens ("Go,,React" gives three labels
with an empty middle one; "," gives two empty labels), and the placeholder is
rendered exactly when the `data-stack` attribute is absent or empty. -/
theorem projectModal_stack_tokens :
    (openModalView none none (some "Go,,React")).stackContent
        = Sum.inl ["Go", "", "React"] ∧
    (openModalView none none (some ",")).stackContent = Sum.inl ["", ""] ∧
    ∀ sAttr : Option String,
      ((openModalView none none sAttr).stackContent
          = Sum.inr "Tech stack not specified."
        ↔ (sAttr = none ∨ sAttr = some "")) := by
  refine ⟨by decide, by decide, ?_⟩
  intro sAttr
  cases sAttr with
  | none => simp [openModalView, stackTokens]
  | some s =>
      by_cases hs : s = ""
      · subst hs
        simp [openModalView, stackTokens]
      · have hne : stackTokens (some s) ≠ [] := by
          simp only [stackTokens, if_neg hs]
          intro hmap
          exact jsSplitAux_ne_nil ',' s.data [] (List.map_eq_nil_iff.mp hmap)
        have hpos : 0 < (stackTokens (some s)).length := List.length_pos.mpr hne
        simp only [openModalView]
        rw [if_pos hpos]
        simp [hs]

/-- C9: with the modal element present, pressing Escape while the modal's
display is "block" sets display to "none" and clears the body overflow;
pressing Escape while the display is anything else changes nothing. -/
theorem escape_key_modal (st : PageState) (hp : st.modalPresent = true) :
    (st.modalDisplay = "block" →
      onKeydown "Escape" st
        = { st with modalDisplay := "none", bodyOverflow := "" }) ∧
    (st.modalDisplay ≠ "block" → onKeydown "Escape" st = st) := by
  constructor
  · intro hb
    rw [onKeydown, if_pos (Or.inl rfl), if_pos ⟨hp, hb⟩, hideModal, if_pos hp]
  · intro hb
    rw [onKeydown, if_pos (Or.inl rfl), if_neg (fun h => hb h.2)]

/-- C9 witness: Escape on a concrete open modal closes it and restores
scrolling; Escape on the closed modal is a no-op. -/
theorem escape_key_modal_witness :
    onKeydown "Escape"
        { modalPresent := true, modalDisplay := "block", bodyOverflow := "hidden" }
      = { modalPresent := true, modalDisplay := "none", bodyOverflow := "" } ∧
    onKeydown "Escape"
        { modalPresent := true, modalDisplay := "none", bodyOverflow := "" }
      = { modalPresent := true, modalDisplay := "none", bodyOverflow := "" } :=
  ⟨(escape_key_modal
      { modalPresent := true, modalDisplay := "block", bodyOverflow := "hidden" } rfl).1 rfl,
   (escape_key_modal
      { modalPresent := true, modalDisplay := "none", bodyOverflow := "" } rfl).2 (by decide)⟩

/-- C10: the only removal of a toast created at `T` is scheduled through the
3000ms dwell timer followed by the 500ms exit animation, so the toast's exit
starts exactly at `T + 3000`, it is removed at `T + 3000 + 500`, and it is
still in the document at every time `t` with `T ≤ t < T + 3000`. -/
theorem toast_lifetime (T : ℚ) :
    (showToastTimeline T).exitStartsAt = (showToastTimeline T).createdAt + 3000 ∧
    (showToastTimeline T).removedAt = (showToastTimeline T).exitStartsAt + 500 ∧
    (showToastTimeline T).createdAt + 3000 ≤ (showToastTimeline T).removedAt ∧
    ∀ t : ℚ, (showToastTimeline T).createdAt ≤ t →
      t < (showToastTimeline T).createdAt + 3000 → toastInDocumentAt T t := by
  refine ⟨rfl, rfl, ?_, ?_⟩
  · simp only [showToastTimeline, toastDwellMs, toastExitDurMs]
    linarith
  · intro t h1 h2
    refine ⟨?_, ?_⟩
    · simpa [showToastTimeline] using h1
    · simp only [showToastTimeline, toastDwellMs, toastExitDurMs] at h2 ⊢
      linarith

/-- C10 witness: a toast created at time 0 is still present at time 2999. -/
theorem toast_lifetime_witness : toastInDocumentAt 0 2999 :=
  (toast_lifetime 0).2.2.2 2999 (by norm_num [showToastTimeline])
    (by norm_num [showToastTimeline])
